import Mathlib

/-!
A shallow embedding of the thesis change-derivation pipeline
(src/thesis/events.py, src/thesis/api/ogr.py, src/thesis/api/event_store.py)
and of its geometry-diff engine, with proofs about the behaviour the
specification claims for it.  Pure Python functions become Lean functions;
raising becomes an `Except PyError` result; the external collaborators
(json decoding, ISO-8601 parsing, the point differ) are passed in as a
record of functions.
-/

/-- Python exception values raised by the embedded code. -/
inductive PyError where
  | valueError (msg : String)
  | typeError (msg : String)
  | nameError (name : String)
  | notImplementedError
  | runtimeError (msg : String)
  | geometryTypeMismatchError (t1 t2 : String)
  deriving Repr, DecidableEq

/-- OGR geometry values as the pipeline reads them: point, linestring and
polygon carry real-valued degree coordinates (modelled as rationals);
`unsupported` stands for a feature geometry of any other OGR type code,
carrying that code and the OGR geometry name. -/
inductive Geometry where
  | point (lon lat : ℚ)
  | linestring (coords : List (ℚ × ℚ))
  | polygon (coords : List (ℚ × ℚ))
  | unsupported (code : Int) (name : String)
  deriving Repr, DecidableEq

/-- `ogr.Geometry.GetGeometryType`: the OGR type code
(`ogr.wkbPoint` = 1, `ogr.wkbLineString` = 2, `ogr.wkbPolygon` = 3). -/
def geomTypeCode : Geometry → Int
  | .point _ _ => 1
  | .linestring _ => 2
  | .polygon _ => 3
  | .unsupported c _ => c

/-- `ogr.Geometry.GetGeometryName`. -/
def geomName : Geometry → String
  | .point _ _ => "POINT"
  | .linestring _ => "LINESTRING"
  | .polygon _ => "POLYGON"
  | .unsupported _ n => n

/-- An OGR feature as the pipeline reads it: the FID, the `osm_timestamp`,
`osm_version` and `all_tags` fields (`none` = field not set on the
feature), and a geometry. -/
structure Feature where
  fid : Int
  osm_timestamp : Option String := none
  osm_version : Option Int := none
  all_tags : Option String := none
  geometry : Geometry
  deriving Repr, DecidableEq

/-- `feature.GetFieldAsInteger("osm_version")`: 0 when the field is unset. -/
def Feature.osmVersion (f : Feature) : Int := f.osm_version.getD 0

/-- `feature.GetFieldAsString("all_tags")`: the empty string when unset. -/
def Feature.allTagsStr (f : Feature) : String := f.all_tags.getD ""

/-- `feature.GetFieldAsISO8601DateTime("osm_timestamp")` before parsing:
the raw field value, empty when unset. -/
def Feature.timestampStr (f : Feature) : String := f.osm_timestamp.getD ""

/-- The external collaborators the pipeline calls, passed as parameters of
the embedding: `json.loads` over a tag blob (result as an association
list), `datetime.fromisoformat` composed with protobuf timestamp
conversion (result as an abstract instant), and `geodiff.diff_points`
(the geodiff module is not under src/). -/
structure Externals where
  jsonLoads : String → Except PyError (List (String × String))
  parseISO : String → Except PyError Int
  diffPoints : Geometry → Geometry → Except PyError (ℚ × ℚ)

/-- Modelled from the spec: fixed-point quantization of a degree
coordinate, degrees × 10,000,000 (the encoders in `thesis.gisevents` are
not under src/; spec §4.5 and the glossary fix the scale). -/
def quantize (x : ℚ) : Int := round (x * 10000000)

/-- A protobuf `Point` message: fixed-point sfixed32 coordinates. -/
structure PointMsg where
  lon : Int
  lat : Int
  deriving Repr, DecidableEq

/-- Modelled from the spec: `gisevents.to_point_message` (not under src/)
quantizes both coordinates to fixed-point ×1e7. -/
def to_point_message (lon lat : ℚ) : PointMsg := ⟨quantize lon, quantize lat⟩

/-- Consecutive differences against a running previous value. -/
def deltaEncodeFrom (prev : Int) : List Int → List Int
  | [] => []
  | x :: xs => (x - prev) :: deltaEncodeFrom x xs

/-- Delta-encode a coordinate list: the first value, then consecutive
differences.  The repository's creation-event tests pin this encoding
down for linestring and polygon coordinate lists. -/
def deltaEncode : List Int → List Int
  | [] => []
  | x :: xs => x :: deltaEncodeFrom x xs

/-- Geometry member of a creation event's oneof. -/
inductive GeomMessage where
  | point (p : PointMsg)
  | linestring (lon lat : List Int)
  | polygon (lon lat : List Int)
  deriving Repr, DecidableEq

/-- Modelled from the spec and the repository's tests:
`gisevents.to_linestring_message` (not under src/) quantizes the
coordinates to ×1e7 fixed point and delta-encodes each coordinate list. -/
def to_linestring_message (coords : List (ℚ × ℚ)) : GeomMessage :=
  .linestring (deltaEncode (coords.map (fun p => quantize p.1)))
    (deltaEncode (coords.map (fun p => quantize p.2)))

/-- Modelled from the spec and the repository's tests:
`gisevents.to_polygon_message` (not under src/), same encoding as
linestrings over the ring's coordinate list. -/
def to_polygon_message (coords : List (ℚ × ℚ)) : GeomMessage :=
  .polygon (deltaEncode (coords.map (fun p => quantize p.1)))
    (deltaEncode (coords.map (fun p => quantize p.2)))

/-- A `CreationEvent` message. -/
structure CreationEvent where
  id : Int
  version : Int
  timestamp : Int
  properties : List (String × String)
  geometry : GeomMessage
  deriving Repr, DecidableEq

/-- Modelled from the spec: `thesis.geo.validate_osm_feature` is not under
src/.  Spec §4.5 has the encoder read the version/timestamp fields of the
feature, and the repository's test requires a point feature without an
`osm_version` field to be rejected with ValueError; modelled as requiring
the `osm_version` field to be set. -/
def validate_osm_feature (f : Feature) : Except PyError Unit :=
  if f.osm_version.isSome then .ok ()
  else .error (.valueError "osm_version field not set")

/-- `thesis.events.creation_event` (events.py lines 19-67): validate, read
FID, parse the timestamp, read the version, decode the tag blob only when
it is non-empty, convert the geometry by kind, unsupported kinds raising
ValueError. -/
def creation_event (E : Externals) (f : Feature) :
    Except PyError CreationEvent := do
  validate_osm_feature f
  let ts ← E.parseISO f.timestampStr
  let props ← if f.allTagsStr = "" then pure ([] : List (String × String))
    else E.jsonLoads f.allTagsStr
  let geom ← (match f.geometry with
    | .point lon lat => pure (GeomMessage.point (to_point_message lon lat))
    | .linestring cs => pure (to_linestring_message cs)
    | .polygon cs => pure (to_polygon_message cs)
    | .unsupported c _ =>
        Except.error (PyError.valueError ("Unsupported geometry type: " ++ toString c)) :
    Except PyError GeomMessage)
  pure { id := f.fid, version := f.osmVersion, timestamp := ts,
         properties := props, geometry := geom }

/-- The version-mismatch message raised by `_validate_modification_args`
(events.py lines 86-90). -/
def versionErrorMsg (prevV currV : Int) : String :=
  "Version number of the second feature argument must be one more than the first argument's. Versions were "
    ++ toString prevV ++ " and " ++ toString currV ++ "."

/-- `thesis.events._validate_modification_args` (events.py lines 70-90):
check the FIDs, then the geometry type codes (raising
GeometryTypeMismatchError with both geometry names), then the version
sequence. -/
def validate_modification_args (prev curr : Feature) : Except PyError Unit :=
  if prev.fid ≠ curr.fid then .error (.valueError "FID mismatch.")
  else if geomTypeCode prev.geometry ≠ geomTypeCode curr.geometry then
    .error (.geometryTypeMismatchError (geomName prev.geometry)
      (geomName curr.geometry))
  else if curr.osmVersion ≠ prev.osmVersion + 1 then
    .error (.valueError (versionErrorMsg prev.osmVersion curr.osmVersion))
  else .ok ()

/-- LineStringPatch commands (CHANGE = 0, DELETE = 1, INSERT = 2). -/
inductive Command where
  | CHANGE
  | DELETE
  | INSERT
  deriving Repr, DecidableEq

/-- Patch member of a modification event's oneof. -/
inductive GeomPatch where
  | pointPatch (p : PointMsg)
  | linestringPatch (index : List Nat) (command : List Command)
      (vector : List PointMsg)
  deriving Repr, DecidableEq

/-- A `ModificationEvent` message. -/
structure ModificationEvent where
  id : Int
  version : Int
  timestamp : Int
  patch : GeomPatch
  deriving Repr, DecidableEq

/-- A `DeletionEvent` message (never constructed by the source). -/
structure DeletionEvent where
  id : Int
  deriving Repr, DecidableEq

/-- `thesis.events.modification_event` (events.py lines 93-139).  After
validation and timestamp parsing, the point branch calls
`geodiff.diff_points` and then `utils.to_point_message`; events.py never
imports `utils`, so that line (128) raises NameError at run time.  Any
other geometry kind raises TypeError (line 131).  The property comparison
of lines 133-137 is therefore unreachable. -/
def modification_event (E : Externals) (prev curr : Feature) :
    Except PyError ModificationEvent := do
  validate_modification_args prev curr
  let ts ← E.parseISO curr.timestampStr
  let patch ← (match prev.geometry with
    | .point _ _ => do
        let _pointDiff ← E.diffPoints prev.geometry curr.geometry
        -- events.py line 128 evaluates `utils.to_point_message(point_diff)`
        -- with the name `utils` unbound in the module.
        Except.error (PyError.nameError "utils")
    | g =>
        Except.error (PyError.typeError
          ("Unsupported geometry type: " ++ toString (geomTypeCode g))) :
    Except PyError GeomPatch)
  let prevProps ← E.jsonLoads prev.allTagsStr
  let currProps ← E.jsonLoads curr.allTagsStr
  if prevProps ≠ currProps then Except.error PyError.notImplementedError
  else pure { id := prev.fid, version := curr.osmVersion, timestamp := ts,
              patch := patch }

/-- `thesis.events.deletion_event` (events.py lines 142-144): raises
NotImplementedError unconditionally. -/
def deletion_event (_f : Feature) : Except PyError DeletionEvent :=
  .error .notImplementedError

/-- One operation of a linestring edit script: a position in the shared
index space of the alignment, a command, and a quantized point payload
(a zero placeholder for DELETE). -/
structure LineDiffOp where
  index : Nat
  command : Command
  vector : PointMsg
  deriving Repr, DecidableEq

/-- Modelled from the spec: the unit-cost edit distance between two
coordinate sequences, coordinates compared for equality (spec §4.4; the
line-diff engine `thesis.utils.get_linediff_message` is not under src/). -/
def editCost : List (ℚ × ℚ) → List (ℚ × ℚ) → Nat
  | [], bs => bs.length
  | as, [] => as.length
  | a :: as, b :: bs =>
    if a = b then editCost as bs
    else 1 + min (editCost as bs) (min (editCost as (b :: bs)) (editCost (a :: as) bs))
termination_by as bs => as.length + bs.length

/-- Modelled from the spec: the line-diff engine (not under src/) per
§4.4: walk the two sequences from the front; equal heads are kept and
advance the shared index; otherwise emit the cheapest of CHANGE, DELETE
and INSERT as measured by the edit distance of the residuals, preferring
CHANGE, then DELETE (the spec's tie-break).  CHANGE and INSERT carry the
quantized target coordinate, DELETE a zero placeholder; an INSERT names
the shared index it is to be placed before. -/
def lineDiffAux : Nat → List (ℚ × ℚ) → List (ℚ × ℚ) → List LineDiffOp
  | _, [], [] => []
  | i, [], b :: bs => ⟨i, .INSERT, to_point_message b.1 b.2⟩ :: lineDiffAux i [] bs
  | i, _ :: as, [] => ⟨i, .DELETE, ⟨0, 0⟩⟩ :: lineDiffAux (i + 1) as []
  | i, a :: as, b :: bs =>
    if a = b then lineDiffAux (i + 1) as bs
    else
      if editCost as bs ≤ editCost as (b :: bs) ∧ editCost as bs ≤ editCost (a :: as) bs then
        ⟨i, .CHANGE, to_point_message b.1 b.2⟩ :: lineDiffAux (i + 1) as bs
      else if editCost as (b :: bs) ≤ editCost (a :: as) bs then
        ⟨i, .DELETE, ⟨0, 0⟩⟩ :: lineDiffAux (i + 1) as (b :: bs)
      else ⟨i, .INSERT, to_point_message b.1 b.2⟩ :: lineDiffAux i (a :: as) bs
termination_by _ as bs => as.length + bs.length

/-- The full edit script of two coordinate sequences. -/
def lineDiff (a b : List (ℚ × ℚ)) : List LineDiffOp := lineDiffAux 0 a b

/-- Modelled from the spec: `thesis.utils.get_linediff_message` (not under
src/) reports the edit script as a LineStringPatch message with parallel
index, command and vector columns. -/
def get_linediff_message (a b : List (ℚ × ℚ)) : GeomPatch :=
  .linestringPatch ((lineDiff a b).map (fun op => op.index))
    ((lineDiff a b).map (fun op => op.command))
    ((lineDiff a b).map (fun op => op.vector))

/-- Modelled from the spec: applying an edit script to the source sequence
(spec §8 round-trip law).  The cursor `i` is the shared index of the head
of the remaining source; an op addressed elsewhere lets the current
coordinate pass through quantized; CHANGE replaces the coordinate with the
op's payload, DELETE drops it, INSERT emits the payload in front of it. -/
def applyScript : List LineDiffOp → Nat → List (ℚ × ℚ) → List PointMsg
  | [], _, as => as.map (fun p => to_point_message p.1 p.2)
  | op :: ops, i, [] =>
    match op.command with
    | .INSERT => op.vector :: applyScript ops i []
    | _ => applyScript ops i []
  | op :: ops, i, a :: as =>
    if op.index = i then
      match op.command with
      | .CHANGE => op.vector :: applyScript ops (i + 1) as
      | .DELETE => applyScript ops (i + 1) as
      | .INSERT => op.vector :: applyScript ops i (a :: as)
    else to_point_message a.1 a.2 :: applyScript (op :: ops) (i + 1) as
termination_by ops _ as => ops.length + as.length

/-- Every index the engine emits on a tail starting at shared index `i` is
at least `i`. -/
theorem lineDiffAux_index_ge (i : Nat) (as bs : List (ℚ × ℚ)) :
    ∀ op ∈ lineDiffAux i as bs, i ≤ op.index := by
  induction i, as, bs using lineDiffAux.induct with
  | case1 i => simp [lineDiffAux]
  | case2 i b bs ih =>
    simp only [lineDiffAux, List.mem_cons]
    rintro op (rfl | h)
    · exact le_refl _
    · exact ih op h
  | case3 i a as ih =>
    simp only [lineDiffAux, List.mem_cons]
    rintro op (rfl | h)
    · exact le_refl _
    · exact le_trans (Nat.le_succ i) (ih op h)
  | case4 i as b bs ih =>
    simp only [lineDiffAux, if_pos rfl]
    intro op h
    exact le_trans (Nat.le_succ i) (ih op h)
  | case5 i a as b bs hab hc ih =>
    simp only [lineDiffAux, if_neg hab, if_pos hc, List.mem_cons]
    rintro op (rfl | h)
    · exact le_refl _
    · exact le_trans (Nat.le_succ i) (ih op h)
  | case6 i a as b bs hab hc hd ih =>
    simp only [lineDiffAux, if_neg hab, if_neg hc, if_pos hd, List.mem_cons]
    rintro op (rfl | h)
    · exact le_refl _
    · exact le_trans (Nat.le_succ i) (ih op h)
  | case7 i a as b bs hab hc hd ih =>
    simp only [lineDiffAux, if_neg hab, if_neg hc, if_neg hd, List.mem_cons]
    rintro op (rfl | h)
    · exact le_refl _
    · exact ih op h

/-- A script whose ops are all addressed past the cursor lets the current
source coordinate pass through quantized. -/
theorem applyScript_pass (ops : List LineDiffOp) (i : Nat) (a : ℚ × ℚ)
    (as : List (ℚ × ℚ)) (h : ∀ op ∈ ops, i + 1 ≤ op.index) :
    applyScript ops i (a :: as)
      = to_point_message a.1 a.2 :: applyScript ops (i + 1) as := by
  cases ops with
  | nil => simp [applyScript]
  | cons op ops =>
    have hne : ¬ op.index = i := by
      have := h op (by simp)
      omega
    simp [applyScript, hne]

/-- Round trip of the engine at any cursor position: applying the script
produced for `(as, bs)` to `as` yields exactly the quantized image of
`bs`. -/
theorem applyScript_lineDiffAux (i : Nat) (as bs : List (ℚ × ℚ)) :
    applyScript (lineDiffAux i as bs) i as
      = bs.map (fun p => to_point_message p.1 p.2) := by
  induction i, as, bs using lineDiffAux.induct with
  | case1 i => simp [lineDiffAux, applyScript]
  | case2 i b bs ih => simp [lineDiffAux, applyScript, ih]
  | case3 i a as ih => simp [lineDiffAux, applyScript, ih]
  | case4 i as b bs ih =>
    have hge := lineDiffAux_index_ge (i + 1) as bs
    rw [show lineDiffAux i (b :: as) (b :: bs) = lineDiffAux (i + 1) as bs by
      simp [lineDiffAux]]
    rw [applyScript_pass _ _ _ _ hge, ih]
    simp
  | case5 i a as b bs hab hc ih =>
    simp only [lineDiffAux, if_neg hab, if_pos hc]
    simp [applyScript, ih]
  | case6 i a as b bs hab hc hd ih =>
    simp only [lineDiffAux, if_neg hab, if_neg hc, if_pos hd]
    simp [applyScript, ih]
  | case7 i a as b bs hab hc hd ih =>
    simp only [lineDiffAux, if_neg hab, if_neg hc, if_neg hd]
    simp [applyScript, ih]

/-- C1: for every pair of finite coordinate sequences A and B, applying
the line-diff engine's emitted edit script (its CHANGE/DELETE/INSERT
operations, in emitted order) to A reproduces B exactly at the
fixed-point level, i.e. B after de-quantization; and the emitted
LineStringPatch message carries exactly that script's index, command and
vector columns. -/
theorem linediff_roundtrip (A B : List (ℚ × ℚ)) :
    applyScript (lineDiff A B) 0 A = B.map (fun p => to_point_message p.1 p.2)
      ∧ get_linediff_message A B
        = .linestringPatch ((lineDiff A B).map (fun op => op.index))
            ((lineDiff A B).map (fun op => op.command))
            ((lineDiff A B).map (fun op => op.vector)) :=
  ⟨applyScript_lineDiffAux 0 A B, rfl⟩

/-- `thesis.osm.ElementType` (node / way / relation). -/
inductive ElementType where
  | node
  | way
  | relation
  deriving Repr, DecidableEq

/-- `thesis.osm.ElementIdentifier`: a numeric id plus an element type. -/
structure ElementIdentifier where
  id : Int
  etype : ElementType
  deriving Repr, DecidableEq

/-- `thesis.osm.ChangeType` (create / modify / delete). -/
inductive ChangeType where
  | create
  | modify
  | delete
  deriving Repr, DecidableEq

/-- `thesis.osm.ChangeInfo`: one record of the parsed change log. -/
structure ChangeInfo where
  change_type : ChangeType
  element_identifier : ElementIdentifier
  deriving Repr, DecidableEq

/-- A GPKG snapshot as `find_changes` queries it: the three layers it
reads, each a list of features fetched by FID. -/
structure DataSource where
  points : List Feature
  lines : List Feature
  linearrings : List Feature
  deriving Repr

/-- `layer.GetFeature(fid)`: the layer's feature with the given FID. -/
def getFeature (layer : List Feature) (fid : Int) : Option Feature :=
  layer.find? (fun f => f.fid == fid)

/-- `thesis.api.ogr._find_feature` (ogr.py lines 143-168): node
identifiers are searched in the points layer; way and relation
identifiers first in the lines layer, then in the linearrings layer; a
miss everywhere returns None. -/
def find_feature (ds : DataSource) (identifier : ElementIdentifier) :
    Option Feature :=
  match identifier.etype with
  | .node => getFeature ds.points identifier.id
  | .way | .relation =>
    match getFeature ds.lines identifier.id with
    | some line => some line
    | none => getFeature ds.linearrings identifier.id

/-- The events `find_changes` can emit. -/
inductive GisEvent where
  | creation (e : CreationEvent)
  | modification (e : ModificationEvent)
  | deletion (e : DeletionEvent)
  deriving Repr, DecidableEq

/-- Which snapshot a `_find_feature` call was made against. -/
inductive DsTag where
  | prevDs
  | currDs
  deriving Repr, DecidableEq

/-- The mutable state of one `find_changes` run: the blacklist (the
module-global `_blacklist` list), the `result` list of events in emission
order, and an instrumentation log of every `_find_feature` call made. -/
structure RunState where
  blacklist : List ElementIdentifier
  events : List GisEvent
  lookups : List (DsTag × ElementIdentifier)
  deriving Repr, DecidableEq

/-- The `_find_feature` calls the body makes for one record before
deciding anything: create consults the current snapshot, modify the
previous then the current snapshot, delete the previous snapshot. -/
def lookupsFor (ci : ChangeInfo) : List (DsTag × ElementIdentifier) :=
  match ci.change_type with
  | .create => [(DsTag.currDs, ci.element_identifier)]
  | .modify => [(DsTag.prevDs, ci.element_identifier),
      (DsTag.currDs, ci.element_identifier)]
  | .delete => [(DsTag.prevDs, ci.element_identifier)]

/-- A required feature lookup for this record comes back not-found. -/
def lookupFails (prevDs currDs : DataSource) (ci : ChangeInfo) : Prop :=
  match ci.change_type with
  | .create => find_feature currDs ci.element_identifier = none
  | .modify => find_feature prevDs ci.element_identifier = none
      ∨ find_feature currDs ci.element_identifier = none
  | .delete => find_feature prevDs ci.element_identifier = none

instance (prevDs currDs : DataSource) (ci : ChangeInfo) :
    Decidable (lookupFails prevDs currDs ci) := by
  unfold lookupFails
  match ci.change_type with
  | .create => exact inferInstance
  | .modify => exact inferInstance
  | .delete => exact inferInstance

/-- The body of the `for change_info in osc_info` loop of
`thesis.api.ogr.find_changes` (ogr.py lines 195-248) for one record:
skip blacklisted identifiers; look the needed features up; a miss adds
the identifier to the blacklist and skips the record; otherwise build the
event and append it to the result. -/
def find_changes_step (E : Externals) (prevDs currDs : DataSource)
    (s : RunState) (ci : ChangeInfo) : Except PyError RunState :=
  let idf := ci.element_identifier
  if idf ∈ s.blacklist then .ok s
  else
    match ci.change_type with
    | .create =>
      let s1 : RunState := { s with lookups := s.lookups ++ lookupsFor ci }
      match find_feature currDs idf with
      | none => .ok { s1 with blacklist := s1.blacklist ++ [idf] }
      | some f => do
          let e ← creation_event E f
          .ok { s1 with events := s1.events ++ [GisEvent.creation e] }
    | .modify =>
      let s1 : RunState := { s with lookups := s.lookups ++ lookupsFor ci }
      match find_feature prevDs idf, find_feature currDs idf with
      | none, _ => .ok { s1 with blacklist := s1.blacklist ++ [idf] }
      | some _, none => .ok { s1 with blacklist := s1.blacklist ++ [idf] }
      | some f1, some f2 => do
          let e ← modification_event E f1 f2
          .ok { s1 with events := s1.events ++ [GisEvent.modification e] }
    | .delete =>
      let s1 : RunState := { s with lookups := s.lookups ++ lookupsFor ci }
      match find_feature prevDs idf with
      | none => .ok { s1 with blacklist := s1.blacklist ++ [idf] }
      | some f => do
          let e ← deletion_event f
          .ok { s1 with events := s1.events ++ [GisEvent.deletion e] }

/-- The whole `for` loop of `find_changes`, left to right over the parsed
change records; an exception from an event builder propagates and stops
the run. -/
def find_changes_loop (E : Externals) (prevDs currDs : DataSource) :
    RunState → List ChangeInfo → Except PyError RunState
  | s, [] => .ok s
  | s, ci :: rest => do
      let s' ← find_changes_step E prevDs currDs s ci
      find_changes_loop E prevDs currDs s' rest

/-- `thesis.api.ogr.find_changes` (ogr.py lines 174-250): run the loop
from an empty blacklist and return the result events.  (In the source the
blacklist is a module global; a run that starts a fresh process starts it
empty.) -/
def find_changes (E : Externals) (prevDs currDs : DataSource)
    (osc_info : List ChangeInfo) : Except PyError (List GisEvent) :=
  (find_changes_loop E prevDs currDs ⟨[], [], []⟩ osc_info).map
    (fun s => s.events)

/-- The module-level state of `thesis.api.event_store`: the config's
event_store_path entry, the `_configured` and `_initialized` flags, the
`_writer` handle (the path it was opened on), and the events written
through it so far. -/
structure StoreState where
  event_store_path : String
  configured : Bool
  initialized : Bool
  writer : Option String
  written : List GisEvent
  deriving Repr, DecidableEq

/-- The module state right after import: DEFAULT_CONFIG, both flags
false, no writer. -/
def initialStoreState : StoreState :=
  { event_store_path := "events.pbf", configured := false,
    initialized := false, writer := none, written := [] }

/-- `event_store.configure` (event_store.py lines 24-33): update the
config when one is given and set the configured flag (re-configuring only
warns). -/
def event_store_configure (cfg : Option String) (s : StoreState) :
    StoreState :=
  { s with event_store_path := cfg.getD s.event_store_path,
           configured := true }

/-- `event_store.init` (event_store.py lines 44-55): a no-op (returning
-1) when already initialized; otherwise merge the config when already
configured and one is given, else call configure; then open the writer.
The `_initialized` flag is never set by any branch. -/
def event_store_init (cfg : Option String) (s : StoreState) : StoreState :=
  if s.initialized then s
  else
    let s1 := if s.configured ∧ cfg.isSome then
        { s with event_store_path := cfg.getD s.event_store_path }
      else event_store_configure cfg s
    { s1 with writer := some s1.event_store_path }

/-- `event_store.write_events` (event_store.py lines 36-41): raise
RuntimeError unless initialized; only then write each event. -/
def write_events (s : StoreState) (events : List GisEvent) :
    Except PyError StoreState :=
  if ¬ s.initialized then .error (.runtimeError "Event store not initialized")
  else .ok { s with written := s.written ++ events }

/-- A call to one of the event store's public set-up operations, with its
optional config argument. -/
inductive StoreCall where
  | configure (cfg : Option String)
  | init (cfg : Option String)
  deriving Repr, DecidableEq

/-- Execute one set-up call against the module state. -/
def runStoreCall (s : StoreState) (c : StoreCall) : StoreState :=
  match c with
  | .configure cfg => event_store_configure cfg s
  | .init cfg => event_store_init cfg s

/-- Execute a sequence of set-up calls, left to right. -/
def runStoreCalls (s : StoreState) : List StoreCall → StoreState
  | [] => s
  | c :: cs => runStoreCalls (runStoreCall s c) cs

/-- Outcome of running a while loop for a bounded number of iterations:
`done` when the loop condition turned false, `running` when the bound ran
out with the loop still going. -/
inductive LoopOutcome where
  | done (evs : List CreationEvent)
  | running (evs : List CreationEvent)
  deriving Repr, DecidableEq

/-- The `while feature:` loop of
`thesis.events.initialize_eventstore_from_snapshot` (events.py lines
158-161) over one layer, run for at most `fuel` iterations: the body
converts the fetched feature and appends the event, but never fetches the
next feature, so the loop leaves only when the initial fetch was None or
when the conversion raises. -/
def snapshot_layer_loop (E : Externals) :
    Nat → Option Feature → List CreationEvent → Except PyError LoopOutcome
  | _, none, evs => .ok (.done evs)
  | 0, some _, evs => .ok (.running evs)
  | fuel + 1, some f, evs => do
      let e ← creation_event E f
      snapshot_layer_loop E fuel (some f) (evs ++ [e])

/-- `thesis.events.initialize_eventstore_from_snapshot` (events.py lines
147-163) under a fuel bound on loop iterations: scan the points, lines
and linearrings layers in order, fetching each layer's first feature once
(`GetNextFeature`) and running the non-advancing while loop on it; when
all three loops leave, hand the events to `event_store.write_events`.
`.ok none` means the fuel ran out with a loop still going; `.ok (some
store)` is normal completion; `.error` means a loop body or the write
raised. -/
def init_eventstore_from_snapshot (E : Externals) (store : StoreState)
    (fuel : Nat) (ds : DataSource) : Except PyError (Option StoreState) := do
  match ← snapshot_layer_loop E fuel ds.points.head? [] with
  | .running _ => pure none
  | .done evs1 =>
    match ← snapshot_layer_loop E fuel ds.lines.head? evs1 with
    | .running _ => pure none
    | .done evs2 =>
      match ← snapshot_layer_loop E fuel ds.linearrings.head? evs2 with
      | .running _ => pure none
      | .done evs3 => do
          let store' ← write_events store (evs3.map GisEvent.creation)
          pure (some store')

/-- Modelled from the spec (§4.4): `geodiff.diff_points` (not under src/)
computes the coordinate-wise delta of two point geometries. -/
def specDiffPoints (g1 g2 : Geometry) : Except PyError (ℚ × ℚ) :=
  match g1, g2 with
  | .point lon1 lat1, .point lon2 lat2 => .ok (lon2 - lon1, lat2 - lat1)
  | _, _ => .error (.typeError "diff_points expects two point geometries")

/-- Concrete externals for the closed theorems: a json decoder that maps a
blob to a one-entry map keyed by the blob (so distinct blobs decode to
distinct property maps), a trivial instant parser, and the spec's point
differ. -/
def fixtureExternals : Externals :=
  { jsonLoads := fun s => .ok [("tag", s)],
    parseISO := fun _ => .ok 0,
    diffPoints := specDiffPoints }

/-- A valid version-1 point feature. -/
def pointFeatureV1 : Feature :=
  { fid := 1, osm_timestamp := some "2023-01-01T00:00:00Z",
    osm_version := some 1, all_tags := some "tags-one",
    geometry := .point 1 1 }

/-- The same feature at version 2, moved by (+1, +1), same tags. -/
def pointFeatureV2 : Feature :=
  { fid := 1, osm_timestamp := some "2023-01-02T00:00:00Z",
    osm_version := some 2, all_tags := some "tags-one",
    geometry := .point 2 2 }

/-- The same feature at version 2 with different tags. -/
def pointFeatureV2Tagged : Feature :=
  { fid := 1, osm_timestamp := some "2023-01-02T00:00:00Z",
    osm_version := some 2, all_tags := some "tags-two",
    geometry := .point 2 2 }

/-- A version-2 linestring feature with FID 1. -/
def linestringFeatureV2 : Feature :=
  { fid := 1, osm_timestamp := some "2023-01-02T00:00:00Z",
    osm_version := some 2, all_tags := some "tags-one",
    geometry := .linestring [(0, 0), (1, 1)] }

/-- C2: the claim says modification_event on two point features that pass
validation returns a ModificationEvent whose point patch is the quantized
coordinate-wise delta.  On the code it instead raises NameError for every
such pair: events.py line 128 evaluates `utils.to_point_message` and the
module never imports `utils` (the repository's own test of this case is
marked xfail "Not fixed").  The code evaluated at a valid input pair —
FID 1, POINT(1 1) version 1 against POINT(2 2) version 2, equal tags: -/
theorem modification_event_point_raises_name_error :
    modification_event fixtureExternals pointFeatureV1 pointFeatureV2
      = .error (.nameError "utils") := by rfl

/-- C3: for every pair of features with equal FIDs and identical geometry
type codes, and any externals, modification_event fails with the
version-order ValueError whenever the current feature's osm_version is
not the previous one's plus 1. -/
theorem modification_event_version_invariant (E : Externals)
    (prev curr : Feature) (hfid : prev.fid = curr.fid)
    (hkind : geomTypeCode prev.geometry = geomTypeCode curr.geometry)
    (hver : curr.osmVersion ≠ prev.osmVersion + 1) :
    modification_event E prev curr
      = .error (.valueError (versionErrorMsg prev.osmVersion curr.osmVersion)) := by
  simp [modification_event, validate_modification_args, hfid, hkind, hver,
    Bind.bind, Except.bind]

/-- Witness for C3 at a concrete input: a feature paired with itself has
equal versions, not successive ones, and fails with the version error. -/
theorem modification_event_version_invariant_witness :
    modification_event fixtureExternals pointFeatureV1 pointFeatureV1
      = .error (.valueError (versionErrorMsg 1 1)) :=
  modification_event_version_invariant fixtureExternals pointFeatureV1
    pointFeatureV1 rfl rfl (by decide)

/-- C4: for every pair of features with equal FIDs whose geometry type
codes differ, and any externals, modification_event fails with the
geometry-kind-mismatch error naming both geometry kinds, with no
condition on the version numbers. -/
theorem modification_event_kind_mismatch (E : Externals)
    (prev curr : Feature) (hfid : prev.fid = curr.fid)
    (hkind : geomTypeCode prev.geometry ≠ geomTypeCode curr.geometry) :
    modification_event E prev curr
      = .error (.geometryTypeMismatchError (geomName prev.geometry)
          (geomName curr.geometry)) := by
  simp [modification_event, validate_modification_args, hfid, hkind,
    Bind.bind, Except.bind]

/-- Witness for C4 at a concrete input: a POINT version 1 against a
LINESTRING version 2 (versions sequential) fails naming both kinds. -/
theorem modification_event_kind_mismatch_witness :
    modification_event fixtureExternals pointFeatureV1 linestringFeatureV2
      = .error (.geometryTypeMismatchError "POINT" "LINESTRING") :=
  modification_event_kind_mismatch fixtureExternals pointFeatureV1
    linestringFeatureV2 rfl (by decide)

/-- C7: deletion-event construction does fail loudly with
NotImplementedError for every feature (events.py lines 142-144); but for
two point features whose property maps differ, modification_event raises
NameError at the geometry-patch step (the `utils` name of events.py line
128 is never imported), so the NotImplementedError of the property-patch
gap (line 137) is unreachable: the code never reaches the property
comparison. -/
theorem deletion_unimplemented_prop_patch_not_reached :
    (∀ f : Feature, deletion_event f = .error .notImplementedError)
      ∧ fixtureExternals.jsonLoads pointFeatureV1.allTagsStr
          ≠ fixtureExternals.jsonLoads pointFeatureV2Tagged.allTagsStr
      ∧ modification_event fixtureExternals pointFeatureV1 pointFeatureV2Tagged
          = .error (.nameError "utils") :=
  ⟨fun _ => rfl,
   by simp [fixtureExternals, pointFeatureV1, pointFeatureV2Tagged, Feature.allTagsStr],
   by rfl⟩


/-- A record whose identifier is blacklisted leaves the run state
untouched: no event, no lookup, no blacklist change. -/
theorem find_changes_step_blacklisted (E : Externals) (p c : DataSource)
    (s : RunState) (ci : ChangeInfo)
    (h : ci.element_identifier ∈ s.blacklist) :
    find_changes_step E p c s ci = .ok s := by
  simp [find_changes_step, h]

/-- Full characterization of one loop body execution: skip when
blacklisted; blacklist-and-skip (performing the record's lookups) when a
required lookup misses; otherwise either append exactly one event or
propagate the builder's exception. -/
theorem find_changes_step_spec (E : Externals) (p c : DataSource)
    (s : RunState) (ci : ChangeInfo) :
    (ci.element_identifier ∈ s.blacklist
        ∧ find_changes_step E p c s ci = .ok s)
    ∨ (ci.element_identifier ∉ s.blacklist ∧ lookupFails p c ci
        ∧ find_changes_step E p c s ci
          = .ok { blacklist := s.blacklist ++ [ci.element_identifier],
                  events := s.events,
                  lookups := s.lookups ++ lookupsFor ci })
    ∨ (ci.element_identifier ∉ s.blacklist ∧ ¬ lookupFails p c ci
        ∧ ((∃ e, find_changes_step E p c s ci
              = .ok { blacklist := s.blacklist,
                      events := s.events ++ [e],
                      lookups := s.lookups ++ lookupsFor ci })
            ∨ ∃ err, find_changes_step E p c s ci = .error err)) := by
  by_cases hb : ci.element_identifier ∈ s.blacklist
  · exact Or.inl ⟨hb, find_changes_step_blacklisted E p c s ci hb⟩
  · right
    rcases ci with ⟨ct, idf⟩
    cases ct with
    | create =>
      cases hf : find_feature c idf with
      | none =>
        left
        refine ⟨hb, by simp [lookupFails, hf], ?_⟩
        simp [find_changes_step, hb, hf, lookupsFor]
      | some f =>
        right
        refine ⟨hb, by simp [lookupFails, hf], ?_⟩
        cases hce : creation_event E f with
        | error err =>
          exact Or.inr ⟨err, by
            simp [find_changes_step, hb, hf, hce, Bind.bind, Except.bind]⟩
        | ok e =>
          exact Or.inl ⟨GisEvent.creation e, by
            simp [find_changes_step, hb, hf, hce, Bind.bind, Except.bind, lookupsFor]⟩
    | modify =>
      cases hf1 : find_feature p idf with
      | none =>
        left
        refine ⟨hb, by simp [lookupFails, hf1], ?_⟩
        simp [find_changes_step, hb, hf1, lookupsFor]
      | some f1 =>
        cases hf2 : find_feature c idf with
        | none =>
          left
          refine ⟨hb, by simp [lookupFails, hf1, hf2], ?_⟩
          simp [find_changes_step, hb, hf1, hf2, lookupsFor]
        | some f2 =>
          right
          refine ⟨hb, by simp [lookupFails, hf1, hf2], ?_⟩
          cases hme : modification_event E f1 f2 with
          | error err =>
            exact Or.inr ⟨err, by
              simp [find_changes_step, hb, hf1, hf2, hme, Bind.bind, Except.bind]⟩
          | ok e =>
            exact Or.inl ⟨GisEvent.modification e, by
              simp [find_changes_step, hb, hf1, hf2, hme, Bind.bind, Except.bind, lookupsFor]⟩
    | delete =>
      cases hf : find_feature p idf with
      | none =>
        left
        refine ⟨hb, by simp [lookupFails, hf], ?_⟩
        simp [find_changes_step, hb, hf, lookupsFor]
      | some f =>
        right
        refine ⟨hb, by simp [lookupFails, hf], ?_⟩
        cases hde : deletion_event f with
        | error err =>
          exact Or.inr ⟨err, by
            simp [find_changes_step, hb, hf, hde, Bind.bind, Except.bind]⟩
        | ok e =>
          exact Or.inl ⟨GisEvent.deletion e, by
            simp [find_changes_step, hb, hf, hde, Bind.bind, Except.bind, lookupsFor]⟩

/-- A record whose required lookup misses is recorded in the blacklist
and skipped, without emitting an event, and the loop goes on (.ok). -/
theorem find_changes_step_miss (E : Externals) (p c : DataSource)
    (s : RunState) (ci : ChangeInfo)
    (hb : ci.element_identifier ∉ s.blacklist)
    (hf : lookupFails p c ci) :
    find_changes_step E p c s ci
      = .ok { blacklist := s.blacklist ++ [ci.element_identifier],
              events := s.events,
              lookups := s.lookups ++ lookupsFor ci } := by
  rcases find_changes_step_spec E p c s ci with ⟨h, _⟩ | ⟨_, _, h⟩ | ⟨_, hnf, _⟩
  · exact absurd h hb
  · exact h
  · exact absurd hf hnf

/-- The blacklist only ever grows across a loop body execution. -/
theorem find_changes_step_mono (E : Externals) (p c : DataSource)
    (s s' : RunState) (ci : ChangeInfo)
    (h : find_changes_step E p c s ci = .ok s') :
    ∀ x ∈ s.blacklist, x ∈ s'.blacklist := by
  rcases find_changes_step_spec E p c s ci with ⟨_, heq⟩ | ⟨_, _, heq⟩ |
    ⟨_, _, ⟨e, heq⟩ | ⟨err, heq⟩⟩ <;> rw [heq] at h
  · cases h
    exact fun x hx => hx
  · cases h
    intro x hx
    simp [List.mem_append, hx]
  · cases h
    exact fun x hx => hx
  · cases h

/-- One loop body execution appends at most one event, always at the
end of the result list. -/
theorem find_changes_step_events_shape (E : Externals) (p c : DataSource)
    (s s' : RunState) (ci : ChangeInfo)
    (h : find_changes_step E p c s ci = .ok s') :
    s'.events = s.events ∨ ∃ e, s'.events = s.events ++ [e] := by
  rcases find_changes_step_spec E p c s ci with ⟨_, heq⟩ | ⟨_, _, heq⟩ |
    ⟨_, _, ⟨e, heq⟩ | ⟨err, heq⟩⟩ <;> rw [heq] at h <;> cases h
  · exact Or.inl rfl
  · exact Or.inl rfl
  · exact Or.inr ⟨e, rfl⟩

/-- The loop processes records strictly left to right: splitting the
record list splits the run. -/
theorem find_changes_loop_append (E : Externals) (p c : DataSource) :
    ∀ (l1 l2 : List ChangeInfo) (s : RunState),
    find_changes_loop E p c s (l1 ++ l2)
      = (find_changes_loop E p c s l1).bind
          (fun s1 => find_changes_loop E p c s1 l2) := by
  intro l1
  induction l1 with
  | nil => intro l2 s; simp [find_changes_loop, Except.bind]
  | cons ci rest ih =>
    intro l2 s
    simp only [List.cons_append, find_changes_loop]
    cases hstep : find_changes_step E p c s ci <;>
      simp [hstep, Bind.bind, Except.bind, ih]

/-- Records referencing an already-blacklisted identifier are invisible
to the rest of the run: the run computes the same final state (events,
lookups and blacklist alike) as the run over the list with them removed. -/
theorem find_changes_loop_filter (E : Externals) (p c : DataSource) :
    ∀ (l : List ChangeInfo) (s : RunState) (idf : ElementIdentifier),
    idf ∈ s.blacklist →
    find_changes_loop E p c s l
      = find_changes_loop E p c s
          (l.filter (fun ci => ci.element_identifier != idf)) := by
  intro l
  induction l with
  | nil => intro s idf _; rfl
  | cons ci rest ih =>
    intro s idf hbl
    by_cases heq : ci.element_identifier = idf
    · have hstep : find_changes_step E p c s ci = .ok s :=
        find_changes_step_blacklisted E p c s ci (heq ▸ hbl)
      have hfilter : (ci :: rest).filter (fun x => x.element_identifier != idf)
          = rest.filter (fun x => x.element_identifier != idf) := by
        simp [List.filter_cons, heq]
      rw [hfilter]
      show (do
        let s' ← find_changes_step E p c s ci
        find_changes_loop E p c s' rest) = _
      rw [hstep]
      simp [Bind.bind, Except.bind]
      exact ih s idf hbl
    · have hfilter : (ci :: rest).filter (fun x => x.element_identifier != idf)
          = ci :: rest.filter (fun x => x.element_identifier != idf) := by
        simp [List.filter_cons, bne_iff_ne, heq]
      rw [hfilter]
      show (do
        let s' ← find_changes_step E p c s ci
        find_changes_loop E p c s' rest) = (do
        let s' ← find_changes_step E p c s ci
        find_changes_loop E p c s'
          (rest.filter (fun x => x.element_identifier != idf)))
      cases hstep : find_changes_step E p c s ci with
      | error err => simp [Bind.bind, Except.bind]
      | ok s1 =>
        simp only [Bind.bind, Except.bind]
        exact ih s1 idf (find_changes_step_mono E p c s s1 ci hstep idf hbl)

/-- A loop body execution that returns leaves the result unchanged
exactly when it skipped the record (blacklisted identifier or missed
lookup); a resolved record contributes exactly one event. -/
theorem find_changes_step_events_iff (E : Externals) (p c : DataSource)
    (s s' : RunState) (ci : ChangeInfo)
    (h : find_changes_step E p c s ci = .ok s') :
    (s'.events = s.events
      ↔ (ci.element_identifier ∈ s.blacklist ∨ lookupFails p c ci)) := by
  rcases find_changes_step_spec E p c s ci with ⟨hb, heq⟩ | ⟨hb, hf, heq⟩ |
    ⟨hb, hnf, ⟨e, heq⟩ | ⟨err, heq⟩⟩ <;> rw [heq] at h <;> cases h
  · simp [hb]
  · simp [hb, hf]
  · constructor
    · intro habs
      exact absurd habs (by simp)
    · rintro (h1 | h2)
      · exact absurd h1 hb
      · exact absurd h2 hnf

/-- Over any run of the loop, earlier events stay an unchanged prefix of
the result: later records never reorder or displace them. -/
theorem find_changes_loop_events_prefix (E : Externals) (p c : DataSource) :
    ∀ (l : List ChangeInfo) (s s' : RunState),
    find_changes_loop E p c s l = .ok s' → s.events <+: s'.events := by
  intro l
  induction l with
  | nil =>
    intro s s' h
    cases h
    exact List.prefix_refl _
  | cons ci rest ih =>
    intro s s' h
    rw [show find_changes_loop E p c s (ci :: rest) = (do
      let s1 ← find_changes_step E p c s ci
      find_changes_loop E p c s1 rest) from rfl] at h
    cases hstep : find_changes_step E p c s ci with
    | error err => rw [hstep] at h; simp [Bind.bind, Except.bind] at h
    | ok s1 =>
      rw [hstep] at h
      simp only [Bind.bind, Except.bind] at h
      have h1 : s.events <+: s1.events := by
        rcases find_changes_step_events_shape E p c s s1 ci hstep with he | ⟨e, he⟩
        · rw [he]
        · rw [he]
          exact ⟨[e], rfl⟩
      exact h1.trans (ih s1 s' h)

/-- A snapshot with three empty layers. -/
def emptyDs : DataSource := ⟨[], [], []⟩

/-- C5: within a single find_changes run, a required lookup that comes
back not-found adds the record's identifier to the blacklist and skips
the record -- no event, an .ok result so the run continues; a record
whose identifier is already blacklisted leaves the state untouched (no
event, no lookup, in particular no repeated lookup); and therefore a run
behaves exactly as if every record referencing a blacklisted identifier
were absent. -/
theorem find_changes_blacklist_stability :
    (∀ (E : Externals) (p c : DataSource) (s : RunState) (ci : ChangeInfo),
        ci.element_identifier ∈ s.blacklist →
        find_changes_step E p c s ci = .ok s)
    ∧ (∀ (E : Externals) (p c : DataSource) (s : RunState) (ci : ChangeInfo),
        ci.element_identifier ∉ s.blacklist → lookupFails p c ci →
        find_changes_step E p c s ci
          = .ok { blacklist := s.blacklist ++ [ci.element_identifier],
                  events := s.events,
                  lookups := s.lookups ++ lookupsFor ci })
    ∧ (∀ (E : Externals) (p c : DataSource) (s : RunState)
          (l : List ChangeInfo) (idf : ElementIdentifier),
        idf ∈ s.blacklist →
        find_changes_loop E p c s l
          = find_changes_loop E p c s
              (l.filter (fun ci => ci.element_identifier != idf))) :=
  ⟨find_changes_step_blacklisted, find_changes_step_miss,
    fun E p c s l idf h => find_changes_loop_filter E p c l s idf h⟩

/-- Witness for C5 at a concrete input: a create record for node 7
against an empty snapshot misses, blacklists node 7, emits nothing, and
logs exactly the one lookup it performed. -/
theorem find_changes_blacklist_stability_witness :
    find_changes_step fixtureExternals emptyDs emptyDs ⟨[], [], []⟩
        ⟨ChangeType.create, ⟨7, ElementType.node⟩⟩
      = .ok { blacklist := [⟨7, ElementType.node⟩], events := [],
              lookups := [(DsTag.currDs, ⟨7, ElementType.node⟩)] } :=
  find_changes_blacklist_stability.2.1 fixtureExternals emptyDs emptyDs
    ⟨[], [], []⟩ ⟨ChangeType.create, ⟨7, ElementType.node⟩⟩
    (by decide) (by rfl)

/-- C6: find_changes processes records strictly in input order (the run
over a concatenation is the composition of the runs), each record
appends at most one event at the end of the output, a returning record
leaves the output unchanged exactly when it was skipped (blacklisted or
missed lookup) and otherwise contributes exactly one event, and the
events emitted before any suffix of the run stay an unchanged prefix of
the final output: the output is the surviving subsequence of the input
order, never reordered. -/
theorem find_changes_order_preservation :
    (∀ (E : Externals) (p c : DataSource) (s : RunState)
        (l1 l2 : List ChangeInfo),
        find_changes_loop E p c s (l1 ++ l2)
          = (find_changes_loop E p c s l1).bind
              (fun s1 => find_changes_loop E p c s1 l2))
    ∧ (∀ (E : Externals) (p c : DataSource) (s : RunState) (ci : ChangeInfo)
          (s' : RunState),
        find_changes_step E p c s ci = .ok s' →
        s'.events = s.events ∨ ∃ e, s'.events = s.events ++ [e])
    ∧ (∀ (E : Externals) (p c : DataSource) (s : RunState) (ci : ChangeInfo)
          (s' : RunState),
        find_changes_step E p c s ci = .ok s' →
        (s'.events = s.events
          ↔ (ci.element_identifier ∈ s.blacklist ∨ lookupFails p c ci)))
    ∧ (∀ (E : Externals) (p c : DataSource) (s s' : RunState)
          (l : List ChangeInfo),
        find_changes_loop E p c s l = .ok s' → s.events <+: s'.events) :=
  ⟨fun E p c s l1 l2 => find_changes_loop_append E p c l1 l2 s,
   fun E p c s ci s' h => find_changes_step_events_shape E p c s s' ci h,
   fun E p c s ci s' h => find_changes_step_events_iff E p c s s' ci h,
   fun E p c s s' l h => find_changes_loop_events_prefix E p c l s s' h⟩

/-- Witness for C6 at a concrete input: processing a modify record for
the blacklisted node 7 returns the state unchanged, and the
events-unchanged condition holds exactly because the identifier is
blacklisted. -/
theorem find_changes_order_preservation_witness :
    (RunState.mk [⟨7, ElementType.node⟩] [] []).events
        = (RunState.mk [⟨7, ElementType.node⟩] [] []).events
      ↔ ((⟨7, ElementType.node⟩ : ElementIdentifier)
            ∈ (RunState.mk [⟨7, ElementType.node⟩] [] []).blacklist
          ∨ lookupFails emptyDs emptyDs
              ⟨ChangeType.modify, ⟨7, ElementType.node⟩⟩) :=
  find_changes_order_preservation.2.2.1 fixtureExternals emptyDs emptyDs
    (RunState.mk [⟨7, ElementType.node⟩] [] [])
    ⟨ChangeType.modify, ⟨7, ElementType.node⟩⟩
    (RunState.mk [⟨7, ElementType.node⟩] [] []) (by rfl)


/-- No sequence of configure/init calls can make the initialized flag
true: neither operation ever sets it. -/
theorem store_initialized_never_set :
    ∀ (cs : List StoreCall) (s : StoreState), s.initialized = false →
    (runStoreCalls s cs).initialized = false := by
  intro cs
  induction cs with
  | nil => intro s h; exact h
  | cons cHead rest ih =>
    intro s h
    apply ih
    cases cHead with
    | configure cfg => simpa [runStoreCall, event_store_configure] using h
    | init cfg =>
      by_cases hc : s.configured ∧ cfg.isSome <;>
        simp [runStoreCall, event_store_init, h, hc, event_store_configure]

/-- C8: after any sequence of configure and init calls (any order, any
configs) from the import-time state, the event store's initialized flag
is still false, and write_events on that state raises RuntimeError
"Event store not initialized" before writing anything: the initialized
state is unreachable through the public operations. -/
theorem write_events_always_uninitialized (calls : List StoreCall)
    (events : List GisEvent) :
    (runStoreCalls initialStoreState calls).initialized = false
      ∧ write_events (runStoreCalls initialStoreState calls) events
          = .error (.runtimeError "Event store not initialized") := by
  have h := store_initialized_never_set calls initialStoreState rfl
  exact ⟨h, by simp [write_events, h]⟩

/-- When the fetched feature converts successfully, the layer loop never
leaves: after any number of iterations it is still running, having
appended that same feature's creation event once per iteration. -/
theorem snapshot_layer_loop_stuck (E : Externals) (f : Feature)
    (e : CreationEvent) (h : creation_event E f = .ok e) :
    ∀ (fuel : Nat) (evs : List CreationEvent),
    snapshot_layer_loop E fuel (some f) evs
      = .ok (.running (evs ++ List.replicate fuel e)) := by
  intro fuel
  induction fuel with
  | zero => intro evs; simp [snapshot_layer_loop]
  | succ n ih =>
    intro evs
    simp [snapshot_layer_loop, h, Bind.bind, Except.bind, ih,
      List.replicate_succ]

/-- A feature whose geometry has OGR type code 6 (MULTIPOLYGON), which
the creation encoder rejects (events.py lines 64-65). -/
def multipolygonFeature : Feature :=
  { fid := 9, osm_timestamp := some "2023-01-01T00:00:00Z",
    osm_version := some 1, all_tags := some "",
    geometry := .unsupported 6 "MULTIPOLYGON" }

/-- A snapshot whose first (points) layer holds exactly the rejected
feature. -/
def multipolygonSnapshot : DataSource := ⟨[multipolygonFeature], [], []⟩

/-- C9 counterexample: a snapshot whose first scanned layer contains one
feature on which the loop body raises (unsupported geometry kind) makes
initialize_eventstore_from_snapshot terminate -- with that ValueError --
already in the first iteration, so "contains at least one feature" does
not suffice for non-termination. -/
theorem init_snapshot_terminates_on_unconvertible_feature :
    multipolygonSnapshot.points.length = 1
      ∧ init_eventstore_from_snapshot fixtureExternals initialStoreState 1
          multipolygonSnapshot
        = .error (.valueError "Unsupported geometry type: 6") := ⟨rfl, rfl⟩

/-- C9 (amended): whenever the first feature of the first scanned layer
is one that creation_event accepts, the run never completes for any
iteration bound: the inner loop never fetches the next feature and keeps
converting the same feature to a creation event, once per iteration,
forever. -/
theorem init_snapshot_diverges (E : Externals) (store : StoreState)
    (ds : DataSource) (f : Feature) (rest : List Feature)
    (e : CreationEvent) (hpoints : ds.points = f :: rest)
    (hconv : creation_event E f = .ok e) (fuel : Nat) :
    init_eventstore_from_snapshot E store fuel ds = .ok none
      ∧ snapshot_layer_loop E fuel ds.points.head? []
          = .ok (.running (List.replicate fuel e)) := by
  have h1 : ds.points.head? = some f := by rw [hpoints]; rfl
  have h2 := snapshot_layer_loop_stuck E f e hconv fuel []
  constructor
  · unfold init_eventstore_from_snapshot
    rw [h1, h2]
    simp [Bind.bind, Except.bind, pure, Except.pure]
  · rw [h1]
    simpa using h2

/-- A snapshot whose points layer holds the valid fixture feature. -/
def pointSnapshot : DataSource := ⟨[pointFeatureV1], [], []⟩

/-- The creation event of the valid fixture feature, spelled out. -/
def pointFeatureV1Event : CreationEvent :=
  { id := 1, version := 1, timestamp := 0,
    properties := [("tag", "tags-one")],
    geometry := .point ⟨10000000, 10000000⟩ }

/-- The creation event the valid fixture feature converts to. -/
theorem creation_event_pointFeatureV1 :
    creation_event fixtureExternals pointFeatureV1 = .ok pointFeatureV1Event := by
  simp [creation_event, fixtureExternals, pointFeatureV1, pointFeatureV1Event,
    validate_osm_feature, Feature.timestampStr, Feature.allTagsStr,
    Feature.osmVersion, to_point_message, Bind.bind, Except.bind, pure,
    Except.pure]
  norm_num [quantize, round_eq]

/-- Witness for C9 (amended) at a concrete input: two iterations on the
valid one-point snapshot are still running, with the same event produced
twice. -/
theorem init_snapshot_diverges_witness :
    init_eventstore_from_snapshot fixtureExternals initialStoreState 2
        pointSnapshot = .ok none
      ∧ snapshot_layer_loop fixtureExternals 2 pointSnapshot.points.head? []
          = .ok (.running (List.replicate 2 pointFeatureV1Event)) :=
  init_snapshot_diverges fixtureExternals initialStoreState pointSnapshot
    pointFeatureV1 [] pointFeatureV1Event rfl creation_event_pointFeatureV1 2

/-- The geometry kinds the creation encoder accepts. -/
def geomSupported : Geometry → Bool
  | .unsupported _ _ => false
  | _ => true

/-- C10 counterexample: a feature whose all_tags field is the empty
string but whose geometry kind is unsupported makes creation_event fail,
so an empty tag blob alone does not make creation_event succeed. -/
theorem creation_event_empty_tags_can_fail :
    multipolygonFeature.all_tags = some ""
      ∧ creation_event fixtureExternals multipolygonFeature
        = .error (.valueError "Unsupported geometry type: 6") := ⟨rfl, rfl⟩

/-- C10 (amended): for every feature that passes validation, whose
timestamp parses and whose geometry kind is supported, an empty or absent
all_tags field makes creation_event succeed with an empty property list,
and the result does not depend on the json decoder at all: the tag blob
is parsed only when it is non-empty. -/
theorem creation_event_empty_tags (E : Externals) (f : Feature) (t : Int)
    (hval : f.osm_version.isSome = true)
    (hts : E.parseISO f.timestampStr = .ok t)
    (hgeom : geomSupported f.geometry = true)
    (htags : f.allTagsStr = "") :
    ∃ ev, creation_event E f = .ok ev ∧ ev.properties = []
      ∧ ∀ jl, creation_event { E with jsonLoads := jl } f = .ok ev := by
  cases hg : f.geometry with
  | point lon lat =>
    refine ⟨{ id := f.fid, version := f.osmVersion, timestamp := t,
              properties := [],
              geometry := .point (to_point_message lon lat) },
      ?_, rfl, fun jl => ?_⟩ <;>
    simp [creation_event, validate_osm_feature, hval, hts, htags, hg,
      Bind.bind, Except.bind, pure, Except.pure]
  | linestring cs =>
    refine ⟨{ id := f.fid, version := f.osmVersion, timestamp := t,
              properties := [],
              geometry := to_linestring_message cs },
      ?_, rfl, fun jl => ?_⟩ <;>
    simp [creation_event, validate_osm_feature, hval, hts, htags, hg,
      Bind.bind, Except.bind, pure, Except.pure]
  | polygon cs =>
    refine ⟨{ id := f.fid, version := f.osmVersion, timestamp := t,
              properties := [],
              geometry := to_polygon_message cs },
      ?_, rfl, fun jl => ?_⟩ <;>
    simp [creation_event, validate_osm_feature, hval, hts, htags, hg,
      Bind.bind, Except.bind, pure, Except.pure]
  | unsupported code n =>
    rw [hg] at hgeom
    simp [geomSupported] at hgeom

/-- A valid point feature with no all_tags field at all. -/
def noTagsPointFeature : Feature :=
  { fid := 3, osm_timestamp := some "2023-01-01T00:00:00Z",
    osm_version := some 1, all_tags := none,
    geometry := .point 1 2 }

/-- Witness for C10 (amended) at a concrete input: the untagged point
feature converts, with empty properties, under every json decoder. -/
theorem creation_event_empty_tags_witness :
    ∃ ev, creation_event fixtureExternals noTagsPointFeature = .ok ev
      ∧ ev.properties = []
      ∧ ∀ jl, creation_event { fixtureExternals with jsonLoads := jl }
          noTagsPointFeature = .ok ev :=
  creation_event_empty_tags fixtureExternals noTagsPointFeature 0
    rfl rfl rfl rfl
